import Mathlib

/-!
Shallow embedding of `src/automation.py`, a browser-automation script that
logs into a reporting portal, renders two daily reports for yesterday's
date, extracts each as a PDF via a print-to-PDF pipeline, and emails the
two files through the local Outlook client, all wrapped in a retry loop.

Modelling conventions:
* The browser/OS environment is a `World` record of oracles saying how
  each fallible external step behaves (whether selectors resolve, what the
  Stimulsoft print iframe yields, how many bytes CDP produces, ...).
* Operations are pure functions from those oracles to an `Except` result,
  a trace of observable events, a page state and a file-system state.
* The file system is an association list from path to file size in bytes
  (`write_bytes` prepends; lookup finds the most recent write).
* `datetime.now(ZoneInfo("Asia/Jerusalem")).date()` is modelled by a
  `Date` parameter `today` denoting the current Asia/Jerusalem local
  date; `timedelta(days=1)` subtraction is `prevDay` on the civil
  calendar, and `strftime("%d/%m/%Y")` is `strftime_ddmmyyyy`.
-/

/-- File system state: association list from path to size in bytes of the
file stored there.  `Path.write_bytes` prepends an entry. -/
def FS := List (String × Nat)

instance : DecidableEq FS := by
  unfold FS
  infer_instance

/-- `Path.exists` / `Path.stat().st_size`: look up the most recent write
to `p`. -/
def fsLookup (fs : FS) (p : String) : Option Nat :=
  match fs with
  | [] => none
  | (q, n) :: rest => if q = p then some n else fsLookup rest p

/-- `save_path.write_bytes(pdf_bytes)`: record a file of size `n` at `p`. -/
def fsWrite (fs : FS) (p : String) (n : Nat) : FS :=
  (p, n) :: fs

/-- Observable side effects of the script, in program order. -/
inductive Event where
  /-- `page.goto(PRES_URL)`, the three credential fills and the login
  button click, up to the post-login visibility assertion. -/
  | login (url : String) (posCode : String) (username : String) (password : String)
  /-- The three navigation clicks to the daily-report screen. -/
  | navigate
  /-- `select_option` on `filterLocations`. -/
  | selectLocations (codes : List String)
  /-- `set_date_input` on the date picker named `selector` with `value`. -/
  | setDateInput (selector : String) (value : String)
  /-- `select_option` on `posClasses`. -/
  | selectPosClasses (codes : List String)
  /-- `open_report_view`: click הצג דוח and wait for the viewer. -/
  | openReportView
  /-- `save_path.write_bytes(pdf_bytes)` inside `print_then_save_pdf`. -/
  | writeFile (path : String) (size : Nat)
  /-- Removal of `#stiPrintReportFrame` from the original page. -/
  | removeFrame
  /-- `send_via_outlook(subject, body, to_email, attachments)`. -/
  | sendEmail (toEmail : String) (subject : String) (body : String)
      (attachments : List String)
deriving DecidableEq

/-- State of the report page that `print_then_save_pdf` observes and
mutates: whether a `#stiPrintReportFrame` element is currently in the DOM. -/
structure PageSt where
  hasPrintFrame : Bool
deriving DecidableEq

/-- Oracle for one invocation of `print_then_save_pdf`: how the browser
behaves during the print-to-PDF extraction.
* `frameAttaches`: whether `#stiPrintReportFrame` gets attached within the
  30 s `wait_for` timeout after the Print click;
* `printHtml`: what the `page.evaluate` extracting
  `doc.documentElement.outerHTML` from the iframe returns (`none` models
  the JavaScript `null` for a missing/contentless iframe);
* `pdfSize`: the length in bytes of `base64.b64decode(result["data"])`
  produced by CDP `Page.printToPDF`. -/
structure PrintWorld where
  frameAttaches : Bool
  printHtml : Option String
  pdfSize : Nat
deriving DecidableEq

deriving instance DecidableEq for Except

/-- Result of `print_then_save_pdf`: the `Except` outcome (an exception
aborts the attempt), the page state, the file system, the event trace of
this call, and — instrumentation for the extraction-strategy claim — the
list of distinct PDF-extraction strategies the control flow attempted. -/
structure PrintResult where
  result : Except String Unit
  page : PageSt
  fs : FS
  events : List Event
  strategiesTried : List String
deriving DecidableEq

/-- Embedding of `print_then_save_pdf(context, page, save_path)`
(src/automation.py lines 58-127).  The code blocks `window.print()`,
clicks Print, waits for the hidden `#stiPrintReportFrame`, extracts its
HTML (raising if that yields null), renders the HTML on a fresh page via
CDP `Page.printToPDF`, writes the decoded bytes to `save_path`, removes
the iframe from the original page, and only then validates that the file
exists with size at least 5000 bytes, raising otherwise.  There is exactly
one extraction strategy in the control flow, recorded here as
`"print-iframe-cdp"`; `strategiesTried` lists the strategies whose
extraction step was actually reached. -/
def print_then_save_pdf (w : PrintWorld) (pg : PageSt) (fs : FS)
    (savePath : String) : PrintResult :=
  -- page.evaluate: override window.print (no further observable effect here)
  -- page.get_by_role("cell", "Print").nth(2).click()
  -- page.locator("#stiPrintReportFrame").wait_for(state="attached")
  if w.frameAttaches = false then
    ⟨.error "Timeout waiting for #stiPrintReportFrame", pg, fs, [], []⟩
  else
    -- the print iframe is now attached to the page
    match w.printHtml with
    | none =>
      -- `if not print_html: ... raise RuntimeError(...)`
      ⟨.error "Could not extract HTML from #stiPrintReportFrame",
        ⟨true⟩, fs, [], ["print-iframe-cdp"]⟩
    | some _ =>
      -- CDP Page.printToPDF, then save_path.write_bytes(pdf_bytes)
      let fs1 := fsWrite fs savePath w.pdfSize
      -- clean up the print iframe from the original page
      let ev := [Event.writeFile savePath w.pdfSize, Event.removeFrame]
      -- `if not save_path.exists() or save_path.stat().st_size < 5_000`
      match fsLookup fs1 savePath with
      | none =>
        ⟨.error "PDF missing/too small after print", ⟨false⟩, fs1, ev,
          ["print-iframe-cdp"]⟩
      | some sz =>
        if sz < 5000 then
          ⟨.error "PDF missing/too small after print", ⟨false⟩, fs1, ev,
            ["print-iframe-cdp"]⟩
        else
          ⟨.ok (), ⟨false⟩, fs1, ev, ["print-iframe-cdp"]⟩

/-- The conditions under which `print_then_save_pdf` succeeds. -/
def printOk (w : PrintWorld) : Prop :=
  w.frameAttaches = true ∧ w.printHtml.isSome = true ∧ 5000 ≤ w.pdfSize

instance (w : PrintWorld) : Decidable (printOk w) := by
  unfold printOk
  infer_instance

theorem fsLookup_fsWrite (fs : FS) (p : String) (n : Nat) :
    fsLookup (fsWrite fs p n) p = some n := by
  simp [fsLookup, fsWrite]

theorem print_ok_cond (w : PrintWorld) (pg : PageSt) (fs : FS) (p : String)
    (h : (print_then_save_pdf w pg fs p).result = .ok ()) : printOk w := by
  obtain ⟨fa, ph, sz⟩ := w
  by_cases h5 : sz < 5000 <;>
    cases fa <;> cases ph <;>
      simp_all [print_then_save_pdf, printOk, fsLookup, fsWrite]

theorem print_eq_of_ok (w : PrintWorld) (pg : PageSt) (fs : FS) (p : String)
    (h : printOk w) :
    print_then_save_pdf w pg fs p =
      ⟨.ok (), ⟨false⟩, fsWrite fs p w.pdfSize,
        [Event.writeFile p w.pdfSize, Event.removeFrame],
        ["print-iframe-cdp"]⟩ := by
  obtain ⟨h1, h2, h3⟩ := h
  obtain ⟨html, hhtml⟩ := Option.isSome_iff_exists.mp h2
  simp [print_then_save_pdf, h1, hhtml, fsLookup, fsWrite, Nat.not_lt.mpr h3]

/-- A civil-calendar date, as produced by `datetime.date`. -/
structure Date where
  year : Nat
  month : Nat
  day : Nat
deriving DecidableEq

/-- Gregorian leap-year rule (as in `datetime`). -/
def isLeap (y : Nat) : Bool :=
  (y % 4 = 0 && y % 100 ≠ 0) || y % 400 = 0

/-- Number of days in month `m` of year `y`. -/
def daysInMonth (y m : Nat) : Nat :=
  if m = 2 then (if isLeap y then 29 else 28)
  else if m = 4 ∨ m = 6 ∨ m = 9 ∨ m = 11 then 30
  else 31

/-- `d - timedelta(days=1)` on the civil calendar. -/
def prevDay (d : Date) : Date :=
  if 1 < d.day then ⟨d.year, d.month, d.day - 1⟩
  else if 1 < d.month then ⟨d.year, d.month - 1, daysInMonth d.year (d.month - 1)⟩
  else ⟨d.year - 1, 12, 31⟩

/-- Zero-pad a number to two digits, as `strftime` does for `%d` and `%m`. -/
def pad2 (n : Nat) : String :=
  if n < 10 then "0" ++ toString n else toString n

/-- `date.strftime("%d/%m/%Y")`. -/
def strftime_ddmmyyyy (d : Date) : String :=
  pad2 d.day ++ "/" ++ pad2 d.month ++ "/" ++ toString d.year

/-- Embedding of `yesterday_str_il` with the default format `"%d/%m/%Y"`
(src/automation.py lines 20-22), with `today` standing for
`datetime.now(ZoneInfo("Asia/Jerusalem")).date()`: yesterday's Asia/Jerusalem
local date rendered as DD/MM/YYYY. -/
def yesterday_str_il (today : Date) : String :=
  strftime_ddmmyyyy (prevDay today)

/-- A process environment: association list from variable name to value. -/
def Env := List (String × String)

/-- `os.environ.get(k)`. -/
def envGet (env : Env) (k : String) : Option String :=
  match env with
  | [] => none
  | (q, v) :: rest => if q = k then some v else envGet rest k

/-- `os.environ[k]`: raises `KeyError` when the variable is unset. -/
def envRequire (env : Env) (k : String) : Except String String :=
  match envGet env k with
  | some v => .ok v
  | none => .error ("KeyError: " ++ k)

/-- Parse a non-empty run of decimal digits. -/
def parseNatAux : List Char → Nat → Option Nat
  | [], acc => some acc
  | c :: cs, acc =>
    if c.isDigit then parseNatAux cs (acc * 10 + (c.toNat - '0'.toNat))
    else none

/-- Parse a decimal integer literal: an optional leading minus sign
followed by at least one digit. -/
def parseInt? (s : String) : Option Int :=
  match s.data with
  | [] => none
  | c :: cs =>
    if c = '-' then
      match cs with
      | [] => none
      | _ => (parseNatAux cs 0).map fun n => -(n : Int)
    else if c.isDigit then (parseNatAux s.data 0).map fun n => (n : Int)
    else none

/-- `int(s)`: raises `ValueError` when `s` is not an integer literal. -/
def pyInt (s : String) : Except String Int :=
  match parseInt? s with
  | some n => .ok n
  | none => .error ("ValueError: invalid literal for int: " ++ s)

/-- The module-level configuration read at import time
(src/automation.py lines 12-17). -/
structure ModuleConfig where
  presUrl : String
  recipient : String
  subject : String
  maxRetries : Int
  retryDelaySeconds : Int
deriving DecidableEq

/-- Embedding of the module-level environment reads: `PRES_URL`,
`RECIPIENT`, `SUBJECT` via `os.environ[...]`, and `MAX_RETRIES`,
`RETRY_DELAY_SECONDS` via `int(os.environ[...])`.  A raised `KeyError` or
`ValueError` propagates. -/
def loadModuleConfig (env : Env) : Except String ModuleConfig :=
  match envRequire env "PRES_URL" with
  | .error e => .error e
  | .ok url =>
    match envRequire env "RECIPIENT" with
    | .error e => .error e
    | .ok recipient =>
      match envRequire env "SUBJECT" with
      | .error e => .error e
      | .ok subject =>
        match envRequire env "MAX_RETRIES" with
        | .error e => .error e
        | .ok mrs =>
          match pyInt mrs with
          | .error e => .error e
          | .ok mr =>
            match envRequire env "RETRY_DELAY_SECONDS" with
            | .error e => .error e
            | .ok rds =>
              match pyInt rds with
              | .error e => .error e
              | .ok rd => .ok ⟨url, recipient, subject, mr, rd⟩

/-- The configuration read inside `run()` (src/automation.py lines
132-136): credentials via `os.environ[...]` and the output directory via
`os.environ.get("PRES_OUT_DIR", "downloads")`. -/
structure RunConfig where
  presCode : String
  username : String
  password : String
  outDir : String
deriving DecidableEq

/-- Embedding of the environment reads at the top of `run()`. -/
def loadRunConfig (env : Env) : Except String RunConfig :=
  match envRequire env "PRES_POS_CODE" with
  | .error e => .error e
  | .ok code =>
    match envRequire env "NLC_USER" with
    | .error e => .error e
    | .ok user =>
      match envRequire env "NLC_PASSWORD" with
      | .error e => .error e
      | .ok pw => .ok ⟨code, user, pw, (envGet env "PRES_OUT_DIR").getD "downloads"⟩

/-- The fixed `filterLocations` codes (src/automation.py lines 168-170). -/
def locationCodes : List String :=
  ["1181", "1178", "1170", "1350", "1174", "1175", "1176", "1173"]

/-- Oracle for one invocation of `run()`: how each fallible browser /
Outlook step behaves during this attempt.  `loginOk` covers the goto,
fills, login click and the post-login `expect`; `navOk` the three
navigation clicks and the criteria `expect`; `view1Ok` / `view2Ok` the two
`open_report_view` calls; `backOk` the back click and its `expect`;
`outlookOk` the COM dispatch and `mail.Send()`. -/
structure RunWorld where
  loginOk : Bool
  navOk : Bool
  view1Ok : Bool
  print1 : PrintWorld
  backOk : Bool
  view2Ok : Bool
  print2 : PrintWorld
  outlookOk : Bool
deriving DecidableEq

/-- Result of one `run()` attempt: outcome, event trace, final file
system. -/
structure RunResult where
  result : Except String Unit
  events : List Event
  fs : FS
deriving DecidableEq

/-- The body text of the email sent by `run()`. -/
def mailBody : String :=
  "Attached are the two reports: מזנון and קופות."

/-- Path of the first report PDF, `out_dir / "מזנון.pdf"`. -/
def fileMeznon (rc : RunConfig) : String := rc.outDir ++ "/מזנון.pdf"

/-- Path of the second report PDF, `out_dir / "קופות.pdf"`. -/
def fileKupot (rc : RunConfig) : String := rc.outDir ++ "/קופות.pdf"

/-- Embedding of `run()` (src/automation.py lines 130-203), given the
already-loaded module and run configuration, the current Asia/Jerusalem
local date `today`, and the oracle `w`.  Any failing step raises,
aborting the attempt; the trace records the observable effects that
happened before the abort. -/
def run (mc : ModuleConfig) (rc : RunConfig) (today : Date) (w : RunWorld) :
    RunResult :=
  let dateStr := yesterday_str_il today
  let fs0 : FS := []
  let evLogin := [Event.login mc.presUrl rc.presCode rc.username rc.password]
  if w.loginOk = false then
    ⟨.error "login failed", evLogin, fs0⟩
  else if w.navOk = false then
    ⟨.error "navigation failed", evLogin ++ [Event.navigate], fs0⟩
  else
    -- filters: locations, start and end date both set to date_str,
    -- then report 1 with posClasses "3"
    let ev1 := evLogin ++ [Event.navigate,
      Event.selectLocations locationCodes,
      Event.setDateInput "startDatePicker" dateStr,
      Event.setDateInput "endDatePicker" dateStr,
      Event.selectPosClasses ["3"]]
    if w.view1Ok = false then
      ⟨.error "report view timeout", ev1, fs0⟩
    else
      let ev2 := ev1 ++ [Event.openReportView]
      let r1 := print_then_save_pdf w.print1 ⟨false⟩ fs0 (fileMeznon rc)
      match r1.result with
      | .error e => ⟨.error e, ev2 ++ r1.events, r1.fs⟩
      | .ok _ =>
        let ev3 := ev2 ++ r1.events
        if w.backOk = false then
          ⟨.error "back navigation failed", ev3, r1.fs⟩
        else
          -- report 2 with posClasses ["1", "4", "2", "5"]
          let ev4 := ev3 ++ [Event.selectPosClasses ["1", "4", "2", "5"]]
          if w.view2Ok = false then
            ⟨.error "report view timeout", ev4, r1.fs⟩
          else
            let ev5 := ev4 ++ [Event.openReportView]
            let r2 := print_then_save_pdf w.print2 r1.page r1.fs (fileKupot rc)
            match r2.result with
            | .error e => ⟨.error e, ev5 ++ r2.events, r2.fs⟩
            | .ok _ =>
              let ev6 := ev5 ++ r2.events
              if w.outlookOk = false then
                ⟨.error "Outlook send failed", ev6, r2.fs⟩
              else
                ⟨.ok (),
                  ev6 ++ [Event.sendEmail mc.recipient mc.subject mailBody
                    [fileMeznon rc, fileKupot rc]],
                  r2.fs⟩

/-- The conditions under which an attempt of `run()` succeeds. -/
def runOkCond (w : RunWorld) : Prop :=
  w.loginOk = true ∧ w.navOk = true ∧ w.view1Ok = true ∧ printOk w.print1 ∧
    w.backOk = true ∧ w.view2Ok = true ∧ printOk w.print2 ∧
    w.outlookOk = true

instance (w : RunWorld) : Decidable (runOkCond w) := by
  unfold runOkCond
  infer_instance

/-- The full event trace of a successful attempt of `run()`. -/
def successTrace (mc : ModuleConfig) (rc : RunConfig) (today : Date)
    (w : RunWorld) : List Event :=
  [Event.login mc.presUrl rc.presCode rc.username rc.password,
   Event.navigate,
   Event.selectLocations locationCodes,
   Event.setDateInput "startDatePicker" (yesterday_str_il today),
   Event.setDateInput "endDatePicker" (yesterday_str_il today),
   Event.selectPosClasses ["3"],
   Event.openReportView,
   Event.writeFile (fileMeznon rc) w.print1.pdfSize,
   Event.removeFrame,
   Event.selectPosClasses ["1", "4", "2", "5"],
   Event.openReportView,
   Event.writeFile (fileKupot rc) w.print2.pdfSize,
   Event.removeFrame,
   Event.sendEmail mc.recipient mc.subject mailBody
     [fileMeznon rc, fileKupot rc]]

/-- The file system left behind by a successful attempt of `run()`. -/
def successFs (rc : RunConfig) (w : RunWorld) : FS :=
  fsWrite (fsWrite [] (fileMeznon rc) w.print1.pdfSize)
    (fileKupot rc) w.print2.pdfSize

theorem run_cond_of_ok (mc : ModuleConfig) (rc : RunConfig) (today : Date)
    (w : RunWorld) (h : (run mc rc today w).result = .ok ()) :
    runOkCond w := by
  unfold runOkCond
  simp only [run] at h
  split at h
  · simp_all
  · split at h
    · simp_all
    · split at h
      · simp_all
      · split at h
        · -- first print_then_save_pdf raised
          simp_all
        · rename_i hr1
          split at h
          · simp_all
          · split at h
            · simp_all
            · split at h
              · simp_all
              · rename_i hr2
                split at h
                · simp_all
                · have hp1 : printOk w.print1 := print_ok_cond _ _ _ _ hr1
                  have hp2 : printOk w.print2 := print_ok_cond _ _ _ _ hr2
                  exact ⟨by simp_all, by simp_all, by simp_all, hp1,
                    by simp_all, by simp_all, hp2, by simp_all⟩

theorem run_eq_of_cond (mc : ModuleConfig) (rc : RunConfig) (today : Date)
    (w : RunWorld) (h : runOkCond w) :
    run mc rc today w = ⟨.ok (), successTrace mc rc today w, successFs rc w⟩ := by
  obtain ⟨h1, h2, h3, h4, h5, h6, h7, h8⟩ := h
  have e1 := print_eq_of_ok w.print1 ⟨false⟩ [] (fileMeznon rc) h4
  have e2 := print_eq_of_ok w.print2 ⟨false⟩
    (fsWrite [] (fileMeznon rc) w.print1.pdfSize) (fileKupot rc) h7
  simp [run, h1, h2, h3, h5, h6, h8, e1, e2, successTrace, successFs]

theorem string_append_cancel_left {s a b : String} (h : s ++ a = s ++ b) :
    a = b := by
  cases s
  cases a
  cases b
  simp only [HAppend.hAppend, Append.append, String.append] at h
  injection h with h
  exact congrArg String.mk (List.append_cancel_left h)

theorem fileMeznon_ne_fileKupot (rc : RunConfig) :
    fileMeznon rc ≠ fileKupot rc := by
  intro h
  have : ("/מזנון.pdf" : String) = "/קופות.pdf" := string_append_cancel_left h
  simp at this

/-- Outcome of the `__main__` retry loop: how many times `run()` was
invoked, the list of `time.sleep` delays performed (in order), and the
final outcome — `.ok ()` when some attempt succeeded (the `break`), or
`.error lastError` for the `RuntimeError` raised by the `for`/`else`
clause, carrying the Python `last_error` (`none` = `None`). -/
structure MainOutcome where
  attemptsMade : Nat
  sleeps : List Nat
  final : Except (Option String) Unit
deriving DecidableEq

/-- One step of the `for attempt in range(1, MAX_RETRIES + 1)` loop
(src/automation.py lines 206-223).  `remaining` is the number of loop
iterations left (`MAX_RETRIES + 1 - attempt`); `outcomes k` is the result
of the `k`-th call to `run()`.  On success the loop `break`s; on failure
`last_error` is recorded and, if `attempt < MAX_RETRIES`, the script
sleeps `RETRY_DELAY_SECONDS` before the next iteration.  When the loop
finishes without `break`, the `else` clause raises `RuntimeError` with
the last error. -/
def retryGo (outcomes : Nat → Except String Unit) (maxRetries delay : Nat) :
    Nat → Nat → Option String → MainOutcome
  | attempt, 0, lastError => ⟨attempt - 1, [], .error lastError⟩
  | attempt, r + 1, _lastError =>
    match outcomes attempt with
    | .ok _ => ⟨attempt, [], .ok ()⟩
    | .error e =>
      let rest := retryGo outcomes maxRetries delay (attempt + 1) r (some e)
      if attempt < maxRetries then
        ⟨rest.attemptsMade, delay :: rest.sleeps, rest.final⟩
      else
        rest

/-- The whole `__main__` block: the retry loop started at attempt 1 with
`last_error = None`. -/
def mainRetry (outcomes : Nat → Except String Unit) (maxRetries delay : Nat) :
    MainOutcome :=
  retryGo outcomes maxRetries delay 1 maxRetries none

theorem retryGo_all_fail (outcomes : Nat → Except String Unit)
    (mr delay : Nat) :
    ∀ (r attempt : Nat) (lastErr : Option String),
      attempt + r = mr + 1 → 1 ≤ r →
      (∀ k, attempt ≤ k → k ≤ mr → ∃ e, outcomes k = Except.error e) →
      ∃ em, outcomes mr = Except.error em ∧
        retryGo outcomes mr delay attempt r lastErr =
          ⟨mr, List.replicate (r - 1) delay, Except.error (some em)⟩ := by
  intro r
  induction r with
  | zero =>
    intro attempt lastErr hsum hr hfail
    omega
  | succ r ih =>
    intro attempt lastErr hsum _ hfail
    have hale : attempt ≤ mr := by omega
    obtain ⟨e, he⟩ := hfail attempt le_rfl hale
    by_cases hr0 : r = 0
    · subst hr0
      have ham : attempt = mr := by omega
      subst ham
      refine ⟨e, he, ?_⟩
      simp [retryGo, he, Nat.lt_irrefl]
    · have hlt : attempt < mr := by omega
      obtain ⟨em, hem, hrec⟩ := ih (attempt + 1) (some e) (by omega)
        (by omega) (fun k hk1 hk2 => hfail k (by omega) hk2)
      refine ⟨em, hem, ?_⟩
      obtain ⟨r1, rfl⟩ : ∃ r1, r = r1 + 1 := ⟨r - 1, by omega⟩
      rw [retryGo, he]
      simp only [hlt, if_true, hrec, Nat.add_sub_cancel, List.replicate_succ]

theorem retryGo_first_success (outcomes : Nat → Except String Unit)
    (mr delay k : Nat) (hk : outcomes k = Except.ok ()) :
    ∀ (r attempt : Nat) (lastErr : Option String),
      attempt + r = mr + 1 → attempt ≤ k → k ≤ mr →
      (∀ j, attempt ≤ j → j < k → ∃ e, outcomes j = Except.error e) →
      retryGo outcomes mr delay attempt r lastErr =
        ⟨k, List.replicate (k - attempt) delay, Except.ok ()⟩ := by
  intro r
  induction r with
  | zero =>
    intro attempt lastErr hsum hak hkm hprev
    omega
  | succ r ih =>
    intro attempt lastErr hsum hak hkm hprev
    by_cases hattempt : attempt = k
    · subst hattempt
      simp [retryGo, hk]
    · have haltk : attempt < k := lt_of_le_of_ne hak hattempt
      obtain ⟨e, he⟩ := hprev attempt le_rfl haltk
      have hlt : attempt < mr := by omega
      have hrec := ih (attempt + 1) (some e) (by omega) (by omega) hkm
        (fun j h1 h2 => hprev j (by omega) h2)
      have hka : k - attempt = (k - (attempt + 1)) + 1 := by omega
      rw [retryGo, he]
      simp only [hlt, if_true, hrec, hka, List.replicate_succ]


/-! ## Concrete example data used by the witnesses -/

/-- An example module configuration. -/
def mcEx : ModuleConfig :=
  ⟨"https://pres.example.com", "reports@example.com", "Daily reports", 3, 60⟩

/-- An example run configuration. -/
def rcEx : RunConfig := ⟨"123", "user", "secret", "downloads"⟩

/-- An example current Asia/Jerusalem local date. -/
def todayEx : Date := ⟨2025, 10, 12⟩

/-- An example oracle in which every step of the attempt succeeds and the
two PDFs come out at 6000 and 7000 bytes. -/
def wEx : RunWorld :=
  ⟨true, true, true, ⟨true, some "<html></html>", 6000⟩, true, true,
    ⟨true, some "<html></html>", 7000⟩, true⟩

/-! ## The claims -/

/-- Claim C1, counterexample.  The claim says that when one extraction
strategy fails to produce the PDF, the next strategy is attempted before
the report extraction is declared failed.  At the concrete input where
the print iframe attaches but its HTML extraction yields null, the
extraction is declared failed after exactly one strategy was attempted:
no second strategy exists in `print_then_save_pdf`. -/
theorem c1_counterexample :
    ((print_then_save_pdf ⟨true, none, 0⟩ ⟨false⟩ [] "downloads/מזנון.pdf").result.isOk
        = false) ∧
    ¬ (2 ≤ (print_then_save_pdf ⟨true, none, 0⟩ ⟨false⟩ []
        "downloads/מזנון.pdf").strategiesTried.length) := by
  decide

/-- Claim C1, amended.  The print-to-PDF extraction pipeline uses a single
extraction strategy (block `window.print`, pull the hidden print iframe's
HTML, re-render it via CDP `Page.printToPDF`): at most one strategy is
ever attempted in `print_then_save_pdf`, and when the iframe HTML
extraction yields null the extraction as a whole is declared failed
immediately, with no fallback strategy. -/
theorem c1_single_strategy (w : PrintWorld) (pg : PageSt) (fs : FS)
    (p : String) :
    (print_then_save_pdf w pg fs p).strategiesTried.length ≤ 1 ∧
    (w.printHtml = none →
      (print_then_save_pdf w pg fs p).result.isOk = false) := by
  obtain ⟨fa, ph, sz⟩ := w
  cases fa <;> cases ph <;>
    simp_all [print_then_save_pdf, fsLookup, fsWrite, Except.isOk, Except.toBool]
  split <;> simp

/-- Witness for C1's amended theorem at a concrete input. -/
theorem c1_witness :
    (print_then_save_pdf ⟨false, none, 0⟩ ⟨false⟩ []
        "downloads/קופות.pdf").strategiesTried.length ≤ 1 ∧
    ((⟨false, none, 0⟩ : PrintWorld).printHtml = none →
      (print_then_save_pdf ⟨false, none, 0⟩ ⟨false⟩ []
        "downloads/קופות.pdf").result.isOk = false) :=
  c1_single_strategy ⟨false, none, 0⟩ ⟨false⟩ [] "downloads/קופות.pdf"

/-- Claim C8: with `MAX_RETRIES = 0` the loop body of
`for attempt in range(1, MAX_RETRIES + 1)` never executes — `run()` is
invoked zero times, no sleep happens — and the `for`/`else` clause raises
the `RuntimeError` reporting failure after 0 attempts with
`last_error = None`. -/
theorem c8_zero_retries (outcomes : Nat → Except String Unit) (delay : Nat) :
    mainRetry outcomes 0 delay = ⟨0, [], Except.error none⟩ := rfl

/-- Claim C9: `print_then_save_pdf` writes the decoded PDF bytes to the
target path before validating the size, so when it raises because the
file is under 5000 bytes, the attempt fails yet the undersized PDF has
already been written and remains in the file system. -/
theorem c9_write_before_size_check (w : PrintWorld) (pg : PageSt) (fs : FS)
    (p : String) (hfa : w.frameAttaches = true)
    (hph : w.printHtml.isSome = true) (hsz : w.pdfSize < 5000) :
    (print_then_save_pdf w pg fs p).result.isOk = false ∧
    fsLookup (print_then_save_pdf w pg fs p).fs p = some w.pdfSize ∧
    Event.writeFile p w.pdfSize ∈ (print_then_save_pdf w pg fs p).events := by
  obtain ⟨fa, ph, sz⟩ := w
  obtain ⟨html, hh⟩ := Option.isSome_iff_exists.mp hph
  simp_all [print_then_save_pdf, fsLookup, fsWrite, Except.isOk, Except.toBool]

/-- Witness for C9 at a concrete input: a 1000-byte PDF is rejected but
stays on disk. -/
theorem c9_witness :
    (print_then_save_pdf ⟨true, some "<html></html>", 1000⟩ ⟨false⟩ []
        "downloads/מזנון.pdf").result.isOk = false ∧
    fsLookup (print_then_save_pdf ⟨true, some "<html></html>", 1000⟩ ⟨false⟩ []
        "downloads/מזנון.pdf").fs "downloads/מזנון.pdf" = some 1000 ∧
    Event.writeFile "downloads/מזנון.pdf" 1000 ∈
      (print_then_save_pdf ⟨true, some "<html></html>", 1000⟩ ⟨false⟩ []
        "downloads/מזנון.pdf").events :=
  c9_write_before_size_check ⟨true, some "<html></html>", 1000⟩ ⟨false⟩ []
    "downloads/מזנון.pdf" rfl rfl (by decide)

/-- Claim C10: whenever `print_then_save_pdf` returns successfully it has
removed `#stiPrintReportFrame` from the original page, so the no-print-
iframe invariant holds again on exit and the next invocation (the second
report, which receives this page state in `run`) starts with no leftover
print iframe and waits for a freshly attached one. -/
theorem c10_print_frame_removed (w : PrintWorld) (pg : PageSt) (fs : FS)
    (p : String) (h : (print_then_save_pdf w pg fs p).result = Except.ok ()) :
    (print_then_save_pdf w pg fs p).page.hasPrintFrame = false ∧
    Event.removeFrame ∈ (print_then_save_pdf w pg fs p).events := by
  have hc := print_ok_cond w pg fs p h
  rw [print_eq_of_ok w pg fs p hc]
  simp

/-- Witness for C10 at a concrete successful extraction. -/
theorem c10_witness :
    (print_then_save_pdf ⟨true, some "<html></html>", 6000⟩ ⟨true⟩ []
        "downloads/מזנון.pdf").page.hasPrintFrame = false ∧
    Event.removeFrame ∈
      (print_then_save_pdf ⟨true, some "<html></html>", 6000⟩ ⟨true⟩ []
        "downloads/מזנון.pdf").events :=
  c10_print_frame_removed ⟨true, some "<html></html>", 6000⟩ ⟨true⟩ []
    "downloads/מזנון.pdf" rfl

/-- Claim C2: the whole run is retried up to exactly `MAX_RETRIES`
attempts with a fixed `RETRY_DELAY_SECONDS` delay between consecutive
attempts and never after the last one.  If every attempt fails, exactly
`maxRetries` attempts are made, `maxRetries - 1` sleeps of `delay` happen
between them, and the process raises carrying the error of the last
attempt.  If attempt `k` is the first to succeed, the loop stops there:
exactly `k` attempts, `k - 1` intermediate sleeps, and a successful exit. -/
theorem c2_retry_loop (outcomes : Nat → Except String Unit)
    (maxRetries delay : Nat) :
    (1 ≤ maxRetries →
      (∀ k, 1 ≤ k → k ≤ maxRetries → ∃ e, outcomes k = Except.error e) →
      ∃ em, outcomes maxRetries = Except.error em ∧
        mainRetry outcomes maxRetries delay =
          ⟨maxRetries, List.replicate (maxRetries - 1) delay,
            Except.error (some em)⟩) ∧
    (∀ k, 1 ≤ k → k ≤ maxRetries → outcomes k = Except.ok () →
      (∀ j, 1 ≤ j → j < k → ∃ e, outcomes j = Except.error e) →
      mainRetry outcomes maxRetries delay =
        ⟨k, List.replicate (k - 1) delay, Except.ok ()⟩) := by
  constructor
  · intro hmr hfail
    obtain ⟨em, hem, h⟩ := retryGo_all_fail outcomes maxRetries delay
      maxRetries 1 none (by omega) hmr hfail
    exact ⟨em, hem, by simpa [mainRetry] using h⟩
  · intro k hk1 hk2 hok hprev
    have h := retryGo_first_success outcomes maxRetries delay k hok
      maxRetries 1 none (by omega) hk1 hk2 hprev
    simpa [mainRetry] using h

/-- Witness for C2: with attempts 1 and 2 failing and attempt 3
succeeding out of 5 allowed, the loop makes 3 attempts with 2 sleeps of
60 seconds and exits successfully. -/
theorem c2_witness :
    mainRetry (fun k => if k < 3 then Except.error "boom" else Except.ok ())
        5 60 =
      ⟨3, List.replicate 2 60, Except.ok ()⟩ :=
  (c2_retry_loop (fun k => if k < 3 then Except.error "boom" else Except.ok ())
      5 60).2
    3 (by omega) (by omega) rfl
    (fun j _ hj => ⟨"boom", by simp [hj]⟩)

/-- Claim C3: every successful attempt filters on a single target date —
yesterday relative to the current Asia/Jerusalem local date `today` —
setting both the start-date picker and the end-date picker to that same
date formatted as DD/MM/YYYY (`strftime("%d/%m/%Y")` of
`today - timedelta(days=1)`); no other date value is ever written to a
date picker. -/
theorem c3_yesterday_both_filters (mc : ModuleConfig) (rc : RunConfig)
    (today : Date) (w : RunWorld)
    (h : (run mc rc today w).result = Except.ok ()) :
    Event.setDateInput "startDatePicker" (yesterday_str_il today) ∈
      (run mc rc today w).events ∧
    Event.setDateInput "endDatePicker" (yesterday_str_il today) ∈
      (run mc rc today w).events ∧
    (∀ sel v, Event.setDateInput sel v ∈ (run mc rc today w).events →
      v = yesterday_str_il today) ∧
    yesterday_str_il today = strftime_ddmmyyyy (prevDay today) := by
  have hc := run_cond_of_ok mc rc today w h
  rw [run_eq_of_cond mc rc today w hc]
  refine ⟨by simp [successTrace], by simp [successTrace], ?_, rfl⟩
  intro sel v hv
  simp only [successTrace, List.mem_cons, List.not_mem_nil, or_false] at hv
  rcases hv with h1 | h1 | h1 | h1 | h1 | h1 | h1 | h1 | h1 | h1 | h1 | h1 |
    h1 | h1 <;> simp_all

/-- Witness for C3 at a concrete successful run dated 2025-10-12. -/
theorem c3_witness :
    Event.setDateInput "startDatePicker" (yesterday_str_il todayEx) ∈
      (run mcEx rcEx todayEx wEx).events ∧
    Event.setDateInput "endDatePicker" (yesterday_str_il todayEx) ∈
      (run mcEx rcEx todayEx wEx).events :=
  have h := c3_yesterday_both_filters mcEx rcEx todayEx wEx rfl
  ⟨h.1, h.2.1⟩

/-- Claim C4: a successful run leaves both report PDFs in the file
system with size at least 5000 bytes; and whenever the decoded PDF is
smaller than 5000 bytes, `print_then_save_pdf` raises, aborting the
attempt. -/
theorem c4_two_pdfs_min_size (mc : ModuleConfig) (rc : RunConfig)
    (today : Date) (w : RunWorld)
    (h : (run mc rc today w).result = Except.ok ()) :
    (∃ s1, fsLookup (run mc rc today w).fs (fileMeznon rc) = some s1 ∧
      5000 ≤ s1) ∧
    (∃ s2, fsLookup (run mc rc today w).fs (fileKupot rc) = some s2 ∧
      5000 ≤ s2) ∧
    (∀ w1 : PrintWorld, ∀ pg fs p, w1.pdfSize < 5000 →
      (print_then_save_pdf w1 pg fs p).result.isOk = false) := by
  have hc := run_cond_of_ok mc rc today w h
  have hne := fileMeznon_ne_fileKupot rc
  rw [run_eq_of_cond mc rc today w hc]
  refine ⟨⟨w.print1.pdfSize, ?_, hc.2.2.2.1.2.2⟩,
    ⟨w.print2.pdfSize, ?_, hc.2.2.2.2.2.2.1.2.2⟩, ?_⟩
  · simp [successFs, fsWrite, fsLookup, Ne.symm hne]
  · simp [successFs, fsWrite, fsLookup]
  · intro w1 pg fs p hlt
    obtain ⟨fa, ph, sz⟩ := w1
    cases fa <;> cases ph <;>
      simp_all [print_then_save_pdf, fsLookup, fsWrite, Except.isOk,
        Except.toBool]

/-- Witness for C4 at a concrete successful run: the two PDFs of 6000 and
7000 bytes are on disk. -/
theorem c4_witness :
    (∃ s1, fsLookup (run mcEx rcEx todayEx wEx).fs (fileMeznon rcEx) =
      some s1 ∧ 5000 ≤ s1) ∧
    (∃ s2, fsLookup (run mcEx rcEx todayEx wEx).fs (fileKupot rcEx) =
      some s2 ∧ 5000 ≤ s2) :=
  have h := c4_two_pdfs_min_size mcEx rcEx todayEx wEx rfl
  ⟨h.1, h.2.1⟩

/-- Predicate picking out the `send_via_outlook` event. -/
def isSendEmail : Event → Bool := fun e =>
  match e with
  | .sendEmail _ _ _ _ => true
  | _ => false

/-- Claim C5: every successful run sends exactly one email through the
local Outlook client — its trace contains exactly one send event — and
that email goes to the configured `RECIPIENT` with the configured
`SUBJECT`, carrying both generated PDF files as attachments. -/
theorem c5_exactly_one_email (mc : ModuleConfig) (rc : RunConfig)
    (today : Date) (w : RunWorld)
    (h : (run mc rc today w).result = Except.ok ()) :
    (run mc rc today w).events.filter isSendEmail =
      [Event.sendEmail mc.recipient mc.subject mailBody
        [fileMeznon rc, fileKupot rc]] := by
  have hc := run_cond_of_ok mc rc today w h
  rw [run_eq_of_cond mc rc today w hc]
  simp [successTrace, isSendEmail]

/-- Witness for C5 at a concrete successful run. -/
theorem c5_witness :
    (run mcEx rcEx todayEx wEx).events.filter isSendEmail =
      [Event.sendEmail "reports@example.com" "Daily reports" mailBody
        [fileMeznon rcEx, fileKupot rcEx]] :=
  c5_exactly_one_email mcEx rcEx todayEx wEx rfl

/-- Claim C7: each successful attempt follows the single sequential
control flow login → navigate → filters (locations, start date, end date)
→ first report (posClasses "3") → extract its PDF → back → second report
(posClasses "1","4","2","5") → extract its PDF → send mail: the event
trace is exactly this sequence, so the first report's PDF is always
written before the second's, and the email is sent only after both PDF
files have been written. -/
theorem c7_sequential_order (mc : ModuleConfig) (rc : RunConfig)
    (today : Date) (w : RunWorld)
    (h : (run mc rc today w).result = Except.ok ()) :
    (run mc rc today w).events =
      [Event.login mc.presUrl rc.presCode rc.username rc.password,
       Event.navigate,
       Event.selectLocations locationCodes,
       Event.setDateInput "startDatePicker" (yesterday_str_il today),
       Event.setDateInput "endDatePicker" (yesterday_str_il today),
       Event.selectPosClasses ["3"],
       Event.openReportView,
       Event.writeFile (fileMeznon rc) w.print1.pdfSize,
       Event.removeFrame,
       Event.selectPosClasses ["1", "4", "2", "5"],
       Event.openReportView,
       Event.writeFile (fileKupot rc) w.print2.pdfSize,
       Event.removeFrame,
       Event.sendEmail mc.recipient mc.subject mailBody
         [fileMeznon rc, fileKupot rc]] := by
  have hc := run_cond_of_ok mc rc today w h
  rw [run_eq_of_cond mc rc today w hc]
  rfl

/-- Witness for C7 at a concrete successful run. -/
theorem c7_witness :
    (run mcEx rcEx todayEx wEx).events =
      [Event.login "https://pres.example.com" "123" "user" "secret",
       Event.navigate,
       Event.selectLocations locationCodes,
       Event.setDateInput "startDatePicker" (yesterday_str_il todayEx),
       Event.setDateInput "endDatePicker" (yesterday_str_il todayEx),
       Event.selectPosClasses ["3"],
       Event.openReportView,
       Event.writeFile (fileMeznon rcEx) 6000,
       Event.removeFrame,
       Event.selectPosClasses ["1", "4", "2", "5"],
       Event.openReportView,
       Event.writeFile (fileKupot rcEx) 7000,
       Event.removeFrame,
       Event.sendEmail "reports@example.com" "Daily reports" mailBody
         [fileMeznon rcEx, fileKupot rcEx]] :=
  c7_sequential_order mcEx rcEx todayEx wEx rfl

theorem envRequire_ok_iff (env : Env) (k v : String) :
    envRequire env k = Except.ok v ↔ envGet env k = some v := by
  unfold envRequire
  cases h : envGet env k <;> simp

theorem pyInt_ok_iff (s : String) (n : Int) :
    pyInt s = Except.ok n ↔ parseInt? s = some n := by
  unfold pyInt
  cases h : parseInt? s <;> simp

/-- Claim C6: every configuration item — target URL, credentials,
recipient, subject, retry count, retry delay, output directory — comes
from an environment variable.  When the module or run configuration loads
successfully, each field equals the content of its environment variable
(`MAX_RETRIES` and `RETRY_DELAY_SECONDS` via `int(...)`), and the output
directory is `PRES_OUT_DIR` with fallback default `"downloads"` when that
variable is unset; when any required variable is missing, loading raises
instead of falling back to a hardcoded value. -/
theorem c6_config_from_env (env : Env) :
    (∀ cfg, loadModuleConfig env = Except.ok cfg →
      envGet env "PRES_URL" = some cfg.presUrl ∧
      envGet env "RECIPIENT" = some cfg.recipient ∧
      envGet env "SUBJECT" = some cfg.subject ∧
      (∃ s, envGet env "MAX_RETRIES" = some s ∧
        parseInt? s = some cfg.maxRetries) ∧
      (∃ s, envGet env "RETRY_DELAY_SECONDS" = some s ∧
        parseInt? s = some cfg.retryDelaySeconds)) ∧
    ((envGet env "PRES_URL" = none ∨ envGet env "RECIPIENT" = none ∨
      envGet env "SUBJECT" = none ∨ envGet env "MAX_RETRIES" = none ∨
      envGet env "RETRY_DELAY_SECONDS" = none) →
      ∀ cfg, loadModuleConfig env ≠ Except.ok cfg) ∧
    (∀ rc, loadRunConfig env = Except.ok rc →
      envGet env "PRES_POS_CODE" = some rc.presCode ∧
      envGet env "NLC_USER" = some rc.username ∧
      envGet env "NLC_PASSWORD" = some rc.password ∧
      rc.outDir = (envGet env "PRES_OUT_DIR").getD "downloads") ∧
    ((envGet env "PRES_POS_CODE" = none ∨ envGet env "NLC_USER" = none ∨
      envGet env "NLC_PASSWORD" = none) →
      ∀ rc, loadRunConfig env ≠ Except.ok rc) := by
  refine ⟨?_, ?_, ?_, ?_⟩
  · intro cfg hcfg
    unfold loadModuleConfig at hcfg
    repeat' split at hcfg
    any_goals exact Except.noConfusion hcfg
    injection hcfg with hcfg
    subst hcfg
    rename_i a1 u hu a2 r hr a3 s hs a4 mrs hmrs a5 mr hmr a6 rds hrds
      a7 rd hrd
    exact ⟨(envRequire_ok_iff env "PRES_URL" u).mp hu,
      (envRequire_ok_iff env "RECIPIENT" r).mp hr,
      (envRequire_ok_iff env "SUBJECT" s).mp hs,
      ⟨mrs, (envRequire_ok_iff env "MAX_RETRIES" mrs).mp hmrs,
        (pyInt_ok_iff mrs mr).mp hmr⟩,
      ⟨rds, (envRequire_ok_iff env "RETRY_DELAY_SECONDS" rds).mp hrds,
        (pyInt_ok_iff rds rd).mp hrd⟩⟩
  · intro hmiss cfg hcfg
    unfold loadModuleConfig at hcfg
    repeat' split at hcfg
    any_goals exact Except.noConfusion hcfg
    injection hcfg with hcfg
    rename_i a1 u hu a2 r hr a3 s hs a4 mrs hmrs a5 mr hmr a6 rds hrds
      a7 rd hrd
    have h1 := (envRequire_ok_iff env "PRES_URL" u).mp hu
    have h2 := (envRequire_ok_iff env "RECIPIENT" r).mp hr
    have h3 := (envRequire_ok_iff env "SUBJECT" s).mp hs
    have h4 := (envRequire_ok_iff env "MAX_RETRIES" mrs).mp hmrs
    have h5 := (envRequire_ok_iff env "RETRY_DELAY_SECONDS" rds).mp hrds
    rcases hmiss with hm | hm | hm | hm | hm <;> simp_all
  · intro rc hrc
    unfold loadRunConfig at hrc
    repeat' split at hrc
    any_goals exact Except.noConfusion hrc
    injection hrc with hrc
    subst hrc
    rename_i a1 c hcode a2 u hu a3 p hp
    exact ⟨(envRequire_ok_iff env "PRES_POS_CODE" c).mp hcode,
      (envRequire_ok_iff env "NLC_USER" u).mp hu,
      (envRequire_ok_iff env "NLC_PASSWORD" p).mp hp, rfl⟩
  · intro hmiss rc hrc
    unfold loadRunConfig at hrc
    repeat' split at hrc
    any_goals exact Except.noConfusion hrc
    injection hrc with hrc
    rename_i a1 c hcode a2 u hu a3 p hp
    have h1 := (envRequire_ok_iff env "PRES_POS_CODE" c).mp hcode
    have h2 := (envRequire_ok_iff env "NLC_USER" u).mp hu
    have h3 := (envRequire_ok_iff env "NLC_PASSWORD" p).mp hp
    rcases hmiss with hm | hm | hm <;> simp_all

/-- An example process environment with every variable set. -/
def envEx : Env :=
  [("PRES_URL", "https://pres.example.com"),
   ("RECIPIENT", "reports@example.com"),
   ("SUBJECT", "Daily reports"),
   ("MAX_RETRIES", "3"),
   ("RETRY_DELAY_SECONDS", "60"),
   ("PRES_POS_CODE", "123"),
   ("NLC_USER", "user"),
   ("NLC_PASSWORD", "secret")]

/-- Witness for C6 at a concrete environment: the loaded module
configuration's URL and recipient are the environment values, and the
output directory falls back to "downloads" since `PRES_OUT_DIR` is
unset. -/
theorem c6_witness :
    envGet envEx "PRES_URL" = some "https://pres.example.com" ∧
    envGet envEx "RECIPIENT" = some "reports@example.com" ∧
    rcEx.outDir = (envGet envEx "PRES_OUT_DIR").getD "downloads" :=
  have h := (c6_config_from_env envEx).1 mcEx (by decide)
  have h2 := (c6_config_from_env envEx).2.2.1 rcEx (by decide)
  ⟨h.1, h.2.1, h2.2.2.2⟩
